import Mathlib

/-!
Verification of the database-access safety layer: a shallow embedding of
`src/database/safety/risk_checker.py`, `src/database/db_tool.py` and
`src/database/connectors/base.py`, together with theorems settling the
specification claims about them.

Conventions of the embedding:
* Python regular-expression searches are embedded by a small nondeterministic
  matcher over `List Char` (`Re` below); each compiled pattern of the source is
  translated combinator by combinator.
* Python floats are embedded as `ℚ`: every arithmetic operation performed by
  the risk checker (sums of integer weights plus `min(total/10, 1.0) * 5`) is
  exact in IEEE doubles, so the rational semantics coincides with the source.
* Exceptions are embedded as `Except String`; `await` points are sequential
  calls; wall-clock time (`execution_time`) is not modelled and is always `0`.
* The backend drivers (psycopg2 / mysql / oracledb) are outside the repository;
  their behaviour is an abstract parameter `Backend`, and observable calls into
  a connector are recorded as an `Event` trace.
-/

set_option maxHeartbeats 1000000

/-! ### Character classes (Python `re` semantics, ASCII range) -/

/-- Python `\w` (word character), ASCII range: letters, digits, underscore. -/
def isWordChar (c : Char) : Bool := c.isAlphanum || c == '_'

/-- Python `\s` (whitespace), ASCII range: space, tab, newline, CR, FF, VT. -/
def isSpaceChar (c : Char) : Bool :=
  c == ' ' || c == '\t' || c == '\n' || c == '\r' || c == '\x0b' || c == '\x0c'

/-! ### A small backtracking regex matcher

A matcher state is the last consumed character (needed for `\b`) plus the
remaining input.  A regex denotes a function from a state to the list of
states it can leave the input in; the list is ordered greedily (longest
consumption first), matching Python's leftmost-greedy search.
-/

/-- Matcher state: previously consumed character (none at start of input) and
remaining input. -/
abbrev RState := Option Char × List Char

/-- A regex fragment: maps a state to all states reachable by consuming a
match of the fragment, greediest first. -/
abbrev Re := RState → List RState

/-- The empty regex fragment (matches the empty string). -/
def rid : Re := fun s => [s]

/-- Sequencing of two fragments. -/
def rseq (a b : Re) : Re := fun s => (a s).flatMap b

/-- Sequencing of a list of fragments. -/
def seqs (l : List Re) : Re := l.foldr rseq rid

/-- Ordered alternation (`x|y`), first alternative preferred. -/
def ralt (a b : Re) : Re := fun s => a s ++ b s

/-- Ordered alternation over a list of alternatives. -/
def ralts (l : List Re) : Re := fun s => l.flatMap (fun a => a s)

/-- Greedy option (`x?`): prefer consuming the fragment. -/
def ropt (a : Re) : Re := fun s => a s ++ [s]

/-- A single character of a class (`[..]`). -/
def rchar1 (p : Char → Bool) : Re := fun s =>
  match s with
  | (_, []) => []
  | (_, c :: cs) => if p c then [(some c, cs)] else []

/-- Helper for greedy `*` over a character class: all reachable states,
longest consumption first. -/
def rstarAux (p : Char → Bool) : Option Char → List Char → List RState
  | prev, [] => [(prev, [])]
  | prev, c :: cs =>
    (if p c then rstarAux p (some c) cs else []) ++ [(prev, c :: cs)]

/-- Greedy `*` over a character class. -/
def rstar (p : Char → Bool) : Re := fun s => rstarAux p s.1 s.2

/-- Greedy `+` over a character class. -/
def rplus (p : Char → Bool) : Re := rseq (rchar1 p) (rstar p)

/-- Helper for case-insensitive literals (Python `re.IGNORECASE`, ASCII). -/
def litAux : List Char → Option Char → List Char → List RState
  | [], prev, l => [(prev, l)]
  | _ :: _, _, [] => []
  | c :: cs, _, d :: ds => if c.toLower == d.toLower then litAux cs (some d) ds else []

/-- Case-insensitive literal. -/
def rlit (pat : String) : Re := fun s => litAux pat.data s.1 s.2

/-- Word boundary `\b`: exactly one side of the current position is a word
character (a missing side counts as non-word). -/
def rwb : Re := fun s =>
  let pw := match s.1 with | some c => isWordChar c | none => false
  let nw := match s.2 with | c :: _ => isWordChar c | [] => false
  if pw != nw then [s] else []

/-- End anchor `$` without `re.MULTILINE`: end of input, or just before a
final newline. -/
def rend : Re := fun s =>
  match s.2 with
  | [] => [s]
  | ['\n'] => [s]
  | _ => []

/-- `.` without `re.DOTALL` repeated greedily (`.*`): any characters except
newline. -/
def rdotStar : Re := rstar (fun c => c != '\n')

/-- `.` with `re.DOTALL` repeated greedily: any characters at all. -/
def rdotAllStar : Re := rstar (fun _ => true)

/-- `\s+`. -/
def rspacesP : Re := rplus isSpaceChar

/-- `\s*`. -/
def rspacesS : Re := rstar isSpaceChar

/-- `\w+`. -/
def rwordP : Re := rplus isWordChar

/-- `re.search` starting from a given state: does the regex match at this or
any later position? -/
def searchAux (re : Re) : Option Char → List Char → Bool
  | prev, [] => !(re (prev, [])).isEmpty
  | prev, c :: cs => !(re (prev, c :: cs)).isEmpty || searchAux re (some c) cs

/-- `re.search` over a character list. -/
def researchL (re : Re) (l : List Char) : Bool := searchAux re none l

/-- `re.search(pattern, s)` as a Boolean. -/
def research (re : Re) (s : String) : Bool := researchL re s.data

/-- Number of non-overlapping matches, `len(re.findall(...))`: fuelled scan;
after a match the scan resumes past it (past one character for an empty
match, as Python does).  The initial fuel `length + 1` is exact: every step
either consumes at least one character or ends the scan. -/
def countAux (re : Re) : Nat → Option Char → List Char → Nat
  | 0, _, _ => 0
  | fuel + 1, prev, l =>
    match re (prev, l) with
    | (p', l') :: _ =>
      if l'.length < l.length then 1 + countAux re fuel p' l'
      else
        match l with
        | [] => 1
        | c :: cs => 1 + countAux re fuel (some c) cs
    | [] =>
      match l with
      | [] => 0
      | c :: cs => countAux re fuel (some c) cs

/-- `len(re.findall(pattern, s))`. -/
def countMatches (re : Re) (s : String) : Nat := countAux re (s.data.length + 1) none s.data

/-! ### The compiled patterns of `SQLRiskChecker` (`risk_checker.py`) -/

/-- `\bDROP\s+TABLE\b`. -/
def re_drop_table : Re := seqs [rwb, rlit "DROP", rspacesP, rlit "TABLE", rwb]

/-- `\bDROP\s+DATABASE\b`. -/
def re_drop_database : Re := seqs [rwb, rlit "DROP", rspacesP, rlit "DATABASE", rwb]

/-- `\bTRUNCATE\s+TABLE\b`. -/
def re_truncate_table : Re := seqs [rwb, rlit "TRUNCATE", rspacesP, rlit "TABLE", rwb]

/-- `\bDELETE\s+(FROM\s+)?\w+\s*$`. -/
def re_delete_all : Re :=
  seqs [rwb, rlit "DELETE", rspacesP, ropt (seqs [rlit "FROM", rspacesP]), rwordP, rspacesS, rend]

/-- `\bUPDATE\s+\w+\s+SET\b.*\bWHERE\s*$`. -/
def re_update_all : Re :=
  seqs [rwb, rlit "UPDATE", rspacesP, rwordP, rspacesP, rlit "SET", rwb, rdotStar,
    rwb, rlit "WHERE", rspacesS, rend]

/-- `\bALTER\s+TABLE\s+\w+\s+DROP\b`. -/
def re_alter_table_drop : Re :=
  seqs [rwb, rlit "ALTER", rspacesP, rlit "TABLE", rspacesP, rwordP, rspacesP, rlit "DROP", rwb]

/-- `\bGRANT\s+ALL\b`. -/
def re_grant_all : Re := seqs [rwb, rlit "GRANT", rspacesP, rlit "ALL", rwb]

/-- `\bREVOKE\s+ALL\b`. -/
def re_revoke_all : Re := seqs [rwb, rlit "REVOKE", rspacesP, rlit "ALL", rwb]

/-- `\bEXEC\b|\bEXECUTE\b`. -/
def re_exec : Re :=
  ralt (seqs [rwb, rlit "EXEC", rwb]) (seqs [rwb, rlit "EXECUTE", rwb])

/-- `\bxp_cmdshell\b`. -/
def re_xp_cmdshell : Re := seqs [rwb, rlit "xp_cmdshell", rwb]

/-- The names of the ten dangerous-operation patterns, in the insertion order
of the `dangerous_patterns` dict. -/
def dangerous_pattern_names : List String :=
  ["drop_table", "drop_database", "truncate_table", "delete_all", "update_all",
   "alter_table_drop", "grant_all", "revoke_all", "exec", "xp_cmdshell"]

/-- `dangerous_patterns[name].search(query)`: does the named dangerous pattern
match the query?  (Names not in the dict never match.) -/
def dangerousMatch (name : String) (query : String) : Bool :=
  if name == "drop_table" then research re_drop_table query
  else if name == "drop_database" then research re_drop_database query
  else if name == "truncate_table" then research re_truncate_table query
  else if name == "delete_all" then research re_delete_all query
  else if name == "update_all" then research re_update_all query
  else if name == "alter_table_drop" then research re_alter_table_drop query
  else if name == "grant_all" then research re_grant_all query
  else if name == "revoke_all" then research re_revoke_all query
  else if name == "exec" then research re_exec query
  else if name == "xp_cmdshell" then research re_xp_cmdshell query
  else false

/-- `SQLRiskChecker._is_data_modification_query`: any of
`\bINSERT\s+INTO\b`, `\bUPDATE\s+\w+\s+SET\b`, `\bDELETE\s+FROM\b`,
`\bMERGE\s+INTO\b` matches. -/
def _is_data_modification_query (query : String) : Bool :=
  research (seqs [rwb, rlit "INSERT", rspacesP, rlit "INTO", rwb]) query ||
  research (seqs [rwb, rlit "UPDATE", rspacesP, rwordP, rspacesP, rlit "SET", rwb]) query ||
  research (seqs [rwb, rlit "DELETE", rspacesP, rlit "FROM", rwb]) query ||
  research (seqs [rwb, rlit "MERGE", rspacesP, rlit "INTO", rwb]) query

/-- `SQLRiskChecker._is_schema_change_query`. -/
def _is_schema_change_query (query : String) : Bool :=
  research (seqs [rwb, rlit "CREATE", rspacesP, rlit "TABLE", rwb]) query ||
  research (seqs [rwb, rlit "ALTER", rspacesP, rlit "TABLE", rwb]) query ||
  research (seqs [rwb, rlit "DROP", rspacesP, rlit "TABLE", rwb]) query ||
  research (seqs [rwb, rlit "CREATE", rspacesP, rlit "INDEX", rwb]) query ||
  research (seqs [rwb, rlit "DROP", rspacesP, rlit "INDEX", rwb]) query ||
  research (seqs [rwb, rlit "CREATE", rspacesP, rlit "VIEW", rwb]) query ||
  research (seqs [rwb, rlit "DROP", rspacesP, rlit "VIEW", rwb]) query

/-! ### Comment stripping used by `_has_missing_where_clause` -/

/-- `re.sub(r"--.*$", "", query, flags=re.MULTILINE)`: remove from each `--`
to the end of its line (the newline itself is kept).  The Boolean state is
"currently inside a line comment". -/
def stripLineAux : Bool → List Char → List Char
  | _, [] => []
  | true, c :: rest => if c = '\n' then '\n' :: stripLineAux false rest else stripLineAux true rest
  | false, '-' :: '-' :: rest => stripLineAux true rest
  | false, c :: rest => c :: stripLineAux false rest

/-- Remove `--` line comments. -/
def stripLineComments (l : List Char) : List Char := stripLineAux false l

/-- Skip past the first `*/`, if any (the non-greedy `.*?\*/`). -/
def dropThruClose : List Char → Option (List Char)
  | [] => none
  | '*' :: '/' :: rest => some rest
  | _ :: rest => dropThruClose rest

/-- Fuelled body of `re.sub(r"/\*.*?\*/", "", q, flags=re.DOTALL)`: each
`/*` with a matching `*/` is removed together with the enclosed text; an
unterminated `/*` is left verbatim (the pattern cannot match it).  Each step
consumes fuel one and at least one character, so fuel `length + 1` is exact. -/
def stripBlockAux : Nat → List Char → List Char
  | 0, l => l
  | _ + 1, [] => []
  | fuel + 1, '/' :: '*' :: rest =>
    match dropThruClose rest with
    | some rest' => stripBlockAux fuel rest'
    | none => '/' :: '*' :: rest
  | fuel + 1, c :: rest => c :: stripBlockAux fuel rest

/-- Remove `/* ... */` block comments. -/
def stripBlockComments (l : List Char) : List Char := stripBlockAux (l.length + 1) l

/-- Python `str.strip()`: drop leading and trailing whitespace. -/
def pyStrip (l : List Char) : List Char :=
  ((l.dropWhile isSpaceChar).reverse.dropWhile isSpaceChar).reverse

/-- `SQLRiskChecker._has_missing_where_clause`: strip line comments, strip
block comments, `strip()`; if the UPDATE...SET or DELETE pattern matches the
result, report whether `\bWHERE\b.*$` does not. -/
def _has_missing_where_clause (query : String) : Bool :=
  let q := pyStrip (stripBlockComments (stripLineComments query.data))
  if researchL (seqs [rwb, rlit "UPDATE", rspacesP, rwordP, rspacesP, rlit "SET", rwb]) q ||
     researchL re_delete_all q then
    !(researchL (seqs [rwb, rlit "WHERE", rwb, rdotStar, rend]) q)
  else false

/-- `SQLRiskChecker._has_wildcard_select`: `\bSELECT\s+\*\b`. -/
def _has_wildcard_select (query : String) : Bool :=
  research (seqs [rwb, rlit "SELECT", rspacesP, rlit "*", rwb]) query

/-- `SQLRiskChecker._contains_system_commands`. -/
def _contains_system_commands (query : String) : Bool :=
  research (seqs [rwb, rlit "SHUTDOWN", rwb]) query ||
  research (seqs [rwb, rlit "BACKUP", rspacesP, rlit "DATABASE", rwb]) query ||
  research (seqs [rwb, rlit "RESTORE", rspacesP, rlit "DATABASE", rwb]) query ||
  research (seqs [rwb, rlit "EXEC", rspacesP, rlit "sp_"]) query ||
  research re_xp_cmdshell query

/-- The eight complexity factors summed (`total` in
`_calculate_complexity_score`), kept as a `Nat` so that concrete queries can
be evaluated by `decide`. -/
def complexityTotal (query : String) : Nat :=
  countMatches (seqs [rwb, rlit "SELECT", rwb, rdotAllStar, rwb, rlit "FROM", rwb,
    rdotAllStar, rlit "(", rspacesS, rlit "SELECT", rwb]) query +
  countMatches (seqs [rwb, ralts [rlit "JOIN", rlit "INNER JOIN", rlit "LEFT JOIN",
    rlit "RIGHT JOIN", rlit "FULL JOIN"], rwb]) query +
  countMatches (seqs [rwb, rlit "UNION", rwb]) query +
  countMatches (seqs [rwb, rlit "GROUP", rspacesP, rlit "BY", rwb]) query +
  countMatches (seqs [rwb, rlit "HAVING", rwb]) query +
  countMatches (seqs [rwb, rlit "ORDER", rspacesP, rlit "BY", rwb]) query +
  countMatches (seqs [rwb, rlit "CASE", rwb]) query +
  countMatches (seqs [rwb, ralts [rlit "COUNT", rlit "SUM", rlit "AVG", rlit "MIN",
    rlit "MAX", rlit "CONCAT", rlit "SUBSTRING"], rwb]) query

/-- Python `min` on rationals (first argument preferred on ties). -/
def pymin (a b : ℚ) : ℚ := if a ≤ b then a else b

/-- `SQLRiskChecker._calculate_complexity_score`: sum the eight
`len(re.findall(...))` factors, divide by 10, clamp to 1.0. -/
def _calculate_complexity_score (query : String) : ℚ :=
  pymin ((complexityTotal query : ℚ) / 10) 1

/-! ### Data model (`src/models/__init__.py`) -/

/-- `RiskLevel` (string enum `low/medium/high/critical`). -/
inductive RiskLevel where
  | low
  | medium
  | high
  | critical
deriving DecidableEq, Repr

/-- `QueryType` (string enum). -/
inductive QueryType where
  | SELECT
  | INSERT
  | UPDATE
  | DELETE
  | CREATE
  | ALTER
  | DROP
deriving DecidableEq, Repr

/-- `DatabaseType` (string enum). -/
inductive DatabaseType where
  | postgresql
  | mysql
  | oracle
  | sqlite
deriving DecidableEq, Repr

/-- The string value of a `DatabaseType` member (Python renders the `str`
enum by its value in f-strings and dict lookups). -/
def DatabaseType.value : DatabaseType → String
  | .postgresql => "postgresql"
  | .mysql => "mysql"
  | .oracle => "oracle"
  | .sqlite => "sqlite"

/-- `DatabaseConnection` (pydantic model).  `port` is a decimal port number;
`connection_timeout` and `pool_size` default as in the source. -/
structure DatabaseConnection where
  host : String
  port : Nat
  database : String
  username : String
  password : String
  database_type : DatabaseType
  ssl_mode : Option String := none
  connection_timeout : Nat := 30
  pool_size : Nat := 5
deriving DecidableEq, Repr

/-- Query parameters (`Dict[str, Any]`): values are opaque to this layer and
modelled as strings. -/
abbrev QueryParams := List (String × String)

/-- `DatabaseQuery` (pydantic model). -/
structure DatabaseQuery where
  query : String
  parameters : Option QueryParams := none
  database_connection : DatabaseConnection
  timeout : Nat := 30
  max_rows : Option Nat := none
deriving DecidableEq, Repr

/-- `QueryResult` (pydantic model).  Row values are opaque to this layer and
modelled as strings; `execution_time` is not modelled (always `0`). -/
structure QueryResult where
  success : Bool
  data : Option (List QueryParams) := none
  row_count : Nat := 0
  execution_time : ℚ := 0
  error_message : Option String := none
  columns : Option (List String) := none
  query_type : Option QueryType := none
deriving DecidableEq, Repr

/-- `QueryRiskAssessment` (pydantic model). -/
structure QueryRiskAssessment where
  risk_level : RiskLevel
  risk_score : ℚ
  warnings : List String := []
  dangerous_operations : List String := []
  is_safe : Bool
  recommendation : Option String := none
deriving DecidableEq, Repr

/-! ### `SQLRiskChecker.assess_query_risk` assembled -/

/-- The dangerous-operation names whose patterns match the query, in dict
order (the loop over `self.dangerous_patterns.items()`). -/
def dangerousHits (query : String) : List String :=
  dangerous_pattern_names.filter (fun n => dangerousMatch n query)

/-- The warnings accumulated by `assess_query_risk`, in emission order. -/
def warningsOf (query : String) : List String :=
  ((dangerousHits query).map (fun n => "Dangerous operation detected: " ++ n)) ++
  (if _is_data_modification_query query then ["Data modification operation detected"] else []) ++
  (if _is_schema_change_query query then ["Schema modification operation detected"] else []) ++
  (if _has_missing_where_clause query then ["UPDATE/DELETE query without WHERE clause"] else []) ++
  (if _has_wildcard_select query then ["Wildcard SELECT statement detected"] else []) ++
  (if _contains_system_commands query then ["System command detected"] else [])

/-- The score contributed by the non-dangerous-pattern heuristics
(`risk_weights`: data_modification 15, schema_change 25, no_where_clause 20,
wildcard_select 10, system_command 40, complex_query 5). -/
def otherScore (query : String) : ℚ :=
  (if _is_data_modification_query query then 15 else 0) +
  (if _is_schema_change_query query then 25 else 0) +
  (if _has_missing_where_clause query then 20 else 0) +
  (if _has_wildcard_select query then 10 else 0) +
  (if _contains_system_commands query then 40 else 0) +
  _calculate_complexity_score query * 5

/-- The accumulated score before clamping: 30 (`risk_weights
["dangerous_operation"]`) per matching dangerous pattern plus the other
heuristics. -/
def preScore (query : String) : ℚ :=
  30 * ((dangerousHits query).length : ℚ) + otherScore query

/-- The final score: clamped to `max_risk_score = 100`. -/
def riskScore (query : String) : ℚ := pymin (preScore query) 100

/-- The `safe` flag of the loop: forced `False` by any dangerous-pattern
match, by a missing WHERE clause, or by a system command. -/
def safeFlag (query : String) : Bool :=
  (dangerousHits query).isEmpty && !(_has_missing_where_clause query) &&
    !(_contains_system_commands query)

/-- `SQLRiskChecker._determine_risk_level` (`risk_thresholds`: critical 90,
high 70, medium 40). -/
def _determine_risk_level (score : ℚ) : RiskLevel :=
  if score ≥ 90 then .critical
  else if score ≥ 70 then .high
  else if score ≥ 40 then .medium
  else .low

/-- `SQLRiskChecker._recommendation`. -/
def _recommendation (level : RiskLevel) (dangerous : List String) (warnings : List String) :
    String :=
  match level with
  | .critical => "Query blocked: Critical risk level"
  | .high => "High risk query"
  | .medium => "Medium risk query"
  | .low =>
    match dangerous with
    | _ :: _ => "Dangerous operations: " ++ String.intercalate ", " dangerous
    | [] =>
      match warnings with
      | w :: _ => w
      | [] => "Query appears safe"

/-- `SQLRiskChecker.assess_query_risk`.  `sqlparse.parse` returns an empty
statement list exactly for the empty input, so the unparseable early return
is modelled by `query = ""`. -/
def assess_query_risk (query : String) : QueryRiskAssessment :=
  if query = "" then
    { risk_level := .high, risk_score := 80, is_safe := false,
      recommendation := some "Unable to parse SQL query",
      warnings := ["Invalid SQL syntax"] }
  else
    { risk_level := _determine_risk_level (riskScore query),
      risk_score := riskScore query,
      warnings := warningsOf query,
      dangerous_operations := dangerousHits query,
      is_safe := safeFlag query && decide (riskScore query < 70),
      recommendation := some (_recommendation (_determine_risk_level (riskScore query))
        (dangerousHits query) (warningsOf query)) }

/-! ### `BaseDatabaseConnector._parse_query_type` (`connectors/base.py`) -/

/-- Python `str.upper()` (ASCII). -/
def pyUpper (l : List Char) : List Char := l.map Char.toUpper

/-- `BaseDatabaseConnector._parse_query_type`: uppercase the stripped query
and test the seven leading-keyword prefixes in order, defaulting to SELECT. -/
def _parse_query_type (query : String) : QueryType :=
  if "SELECT".data.isPrefixOf (pyUpper (pyStrip query.data)) then .SELECT
  else if "INSERT".data.isPrefixOf (pyUpper (pyStrip query.data)) then .INSERT
  else if "UPDATE".data.isPrefixOf (pyUpper (pyStrip query.data)) then .UPDATE
  else if "DELETE".data.isPrefixOf (pyUpper (pyStrip query.data)) then .DELETE
  else if "CREATE".data.isPrefixOf (pyUpper (pyStrip query.data)) then .CREATE
  else if "ALTER".data.isPrefixOf (pyUpper (pyStrip query.data)) then .ALTER
  else if "DROP".data.isPrefixOf (pyUpper (pyStrip query.data)) then .DROP
  else .SELECT

/-! ### The connection multiplexer (`db_tool.py`) -/

/-- Decimal digit character (`0`–`9` for `n < 10`). -/
def digitCh (n : Nat) : Char := Char.ofNat (48 + n)

/-- Fuelled decimal rendering helper, most significant digit first.  Each
step divides by 10, so fuel `n + 1` always suffices. -/
def natDigsAux : Nat → Nat → List Char
  | 0, _ => []
  | fuel + 1, n =>
    if n < 10 then [digitCh n]
    else natDigsAux fuel (n / 10) ++ [digitCh (n % 10)]

/-- Decimal rendering of a natural number (Python `str(int)` for the port in
the f-string). -/
def natDigs (n : Nat) : List Char := natDigsAux (n + 1) n

/-- `DatabaseTool._conn_key`:
`f"{c.database_type}:{c.host}:{c.port}:{c.database}:{c.username}"`. -/
def _conn_key (c : DatabaseConnection) : String :=
  { data := (c.database_type.value).data ++ ':' :: c.host.data ++ ':' :: natDigs c.port ++
      ':' :: c.database.data ++ ':' :: c.username.data }

/-- `DatabaseTool._connector_types`: the static backend-type → constructor
table (three entries; `sqlite` is absent and raises `Unsupported`). -/
def _connector_types (t : DatabaseType) : Option String :=
  match t with
  | .postgresql => some "src.database.connectors.postgresql.PostgreSQLConnector"
  | .mysql => some "src.database.connectors.mysql.MySQLConnector"
  | .oracle => some "src.database.connectors.oracle.OracleConnector"
  | .sqlite => none

/-- Observable calls into connectors, recorded as a trace. -/
inductive Event where
  | connectorCreated (key : String) (id : Nat)
  | connect (key : String)
  | execute (key : String) (query : String)
  | close (key : String)
  | testConnection (key : String)
  | validateSyntax (key : String) (query : String)
deriving DecidableEq, Repr

/-- Abstract behaviour of the backend drivers, per identity key: what each
connector call returns or raises.  The repository's connectors wrap native
drivers whose behaviour is external, so it is a parameter of the model. -/
structure Backend where
  connectOk : String → Except String Unit
  executeQ : String → String → Option QueryParams → Except String QueryResult
  closeOk : String → Except String Unit
  testConn : String → Except String Bool
  validateSyn : String → String → Except String Bool

/-- The mutable state of a `DatabaseTool`: the `_connectors` cache (insertion
ordered, as a Python dict) mapping identity key to a connector instance
(identified by its creation index), plus the next instance index. -/
structure ToolState where
  connectors : List (String × Nat)
  nextId : Nat
deriving DecidableEq, Repr

/-- A fresh `DatabaseTool` (`__init__`: empty cache). -/
def initState : ToolState := { connectors := [], nextId := 0 }

/-- `self._connectors.get(key)`. -/
def lookupKey (l : List (String × Nat)) (k : String) : Option Nat :=
  (l.find? (fun kv => kv.1 == k)).map (fun kv => kv.2)

/-- `DatabaseTool._get_connector`: cache hit returns the cached instance with
no observable calls; cache miss resolves the constructor table (raising
`Unsupported database type` when absent), instantiates, connects, and caches
only if `connect` succeeds. -/
def _get_connector (b : Backend) (s : ToolState) (c : DatabaseConnection) :
    Except String Nat × ToolState × List Event :=
  let key := _conn_key c
  match lookupKey s.connectors key with
  | some cid => (.ok cid, s, [])
  | none =>
    match _connector_types c.database_type with
    | none => (.error ("Unsupported database type: " ++ c.database_type.value), s, [])
    | some _ =>
      let cid := s.nextId
      match b.connectOk key with
      | .error e =>
        (.error e, { s with nextId := s.nextId + 1 }, [.connectorCreated key cid, .connect key])
      | .ok _ =>
        (.ok cid, { connectors := s.connectors ++ [(key, cid)], nextId := s.nextId + 1 },
          [.connectorCreated key cid, .connect key])

/-- Python `x or default` on an optional string: `None` and `""` are falsy. -/
def pyStrOr (o : Option String) (d : String) : String :=
  match o with
  | none => d
  | some s => if s == "" then d else s

/-- The `QueryResult` built by the `except` clause of `execute_query`
(`success=False, error_message=str(e), query_type=SELECT`). -/
def failedQueryResult (e : String) : QueryResult :=
  { success := false, error_message := some e, execution_time := 0,
    query_type := some .SELECT }

/-- The body of the `try` block of `DatabaseTool.execute_query` (exceptions
still explicit): safety gate, connector resolution, connector execution,
`execution_time` stamping. -/
def execute_query_inner (b : Backend) (s : ToolState) (q : DatabaseQuery)
    (validate_safety : Bool) : Except String QueryResult × ToolState × List Event :=
  if validate_safety && !(assess_query_risk q.query).is_safe then
    (.ok { success := false,
           error_message := some (pyStrOr (assess_query_risk q.query).recommendation
             "Query blocked"),
           execution_time := 0, query_type := some .SELECT }, s, [])
  else
    match _get_connector b s q.database_connection with
    | (.error e, s', ev) => (.error e, s', ev)
    | (.ok _, s', ev) =>
      let key := _conn_key q.database_connection
      match b.executeQ key q.query q.parameters with
      | .error e => (.error e, s', ev ++ [.execute key q.query])
      | .ok res => (.ok { res with execution_time := 0 }, s', ev ++ [.execute key q.query])

/-- `DatabaseTool.execute_query`: the `try` body with every exception caught
and converted to a failed `QueryResult`. -/
def execute_query (b : Backend) (s : ToolState) (q : DatabaseQuery)
    (validate_safety : Bool) : QueryResult × ToolState × List Event :=
  match execute_query_inner b s q validate_safety with
  | (.ok r, s', ev) => (r, s', ev)
  | (.error e, s', ev) => (failedQueryResult e, s', ev)

/-- The body of the `try` block of `DatabaseTool.validate_query`. -/
def validate_query_inner (b : Backend) (s : ToolState) (query : String)
    (conn : DatabaseConnection) : Except String QueryRiskAssessment × ToolState × List Event :=
  match _get_connector b s conn with
  | (.error e, s', ev) => (.error e, s', ev)
  | (.ok _, s', ev) =>
    let key := _conn_key conn
    match b.validateSyn key query with
    | .error e => (.error e, s', ev ++ [.validateSyntax key query])
    | .ok syntax_ok =>
      let ra := assess_query_risk query
      (.ok (if syntax_ok then ra
            else { ra with is_safe := false, recommendation := some "Query has syntax errors" }),
        s', ev ++ [.validateSyntax key query])

/-- `DatabaseTool.validate_query`: exceptions are converted to the
`high/100/unsafe` assessment with a `Validation failed` recommendation. -/
def validate_query (b : Backend) (s : ToolState) (query : String)
    (conn : DatabaseConnection) : QueryRiskAssessment × ToolState × List Event :=
  match validate_query_inner b s query conn with
  | (.ok ra, s', ev) => (ra, s', ev)
  | (.error e, s', ev) =>
    ({ risk_level := .high, risk_score := 100, is_safe := false,
       recommendation := some ("Validation failed: " ++ e) }, s', ev)

/-- The body of the `try` block of `DatabaseTool.test_connection`. -/
def test_connection_inner (b : Backend) (s : ToolState) (conn : DatabaseConnection) :
    Except String Bool × ToolState × List Event :=
  match _get_connector b s conn with
  | (.error e, s', ev) => (.error e, s', ev)
  | (.ok _, s', ev) =>
    match b.testConn (_conn_key conn) with
    | .error e => (.error e, s', ev ++ [.testConnection (_conn_key conn)])
    | .ok r => (.ok r, s', ev ++ [.testConnection (_conn_key conn)])

/-- `DatabaseTool.test_connection`: any exception is converted to `False`. -/
def test_connection (b : Backend) (s : ToolState) (conn : DatabaseConnection) :
    Bool × ToolState × List Event :=
  match test_connection_inner b s conn with
  | (.ok r, s', ev) => (r, s', ev)
  | (.error _, s', ev) => (false, s', ev)

/-- The loop of `DatabaseTool.close_all_connections` over a snapshot of the
cache: `try: await c.close()` / `finally: del self._connectors[key]`.  The
`finally` clause deletes the entry even when `close` raises, but there is no
`except`: the exception then propagates, abandoning the rest of the loop. -/
def closeAllLoop (b : Backend) : List (String × Nat) → ToolState → List Event →
    Except String Unit × ToolState × List Event
  | [], s, ev => (.ok (), s, ev)
  | (key, _) :: rest, s, ev =>
    let s' : ToolState := { s with connectors := s.connectors.filter (fun kv => kv.1 ≠ key) }
    match b.closeOk key with
    | .ok _ => closeAllLoop b rest s' (ev ++ [.close key])
    | .error e => (.error e, s', ev ++ [.close key])

/-- `DatabaseTool.close_all_connections` (it has no `try/except` around the
loop, so a raising `close` propagates to the caller). -/
def close_all_connections (b : Backend) (s : ToolState) :
    Except String Unit × ToolState × List Event :=
  closeAllLoop b s.connectors s []

/-! ### Spec-side definitions and sample values used by the claims -/

/-- Modelled from the spec: the "leading keyword of the trimmed statement",
compared case-insensitively — the maximal initial run of word characters of
the stripped, uppercased statement. -/
def leadingKeyword (query : String) : List Char :=
  (pyUpper (pyStrip query.data)).takeWhile isWordChar

/-- The seven recognized statement keywords with their query kinds, in the
order the source tests them. -/
def queryTypeKeywords : List (String × QueryType) :=
  [("SELECT", .SELECT), ("INSERT", .INSERT), ("UPDATE", .UPDATE), ("DELETE", .DELETE),
   ("CREATE", .CREATE), ("ALTER", .ALTER), ("DROP", .DROP)]

/-- Agreement on the five identity fields (backend-type, host, port,
database, username); the spec's identity key. -/
def sameIdentity (a b : DatabaseConnection) : Prop :=
  a.database_type = b.database_type ∧ a.host = b.host ∧ a.port = b.port ∧
    a.database = b.database ∧ a.username = b.username

instance (a b : DatabaseConnection) : Decidable (sameIdentity a b) := by
  unfold sameIdentity; infer_instance

/-- No identity string field contains the `':'` separator of the key
f-string. -/
def colonFree (c : DatabaseConnection) : Prop :=
  ':' ∉ c.host.data ∧ ':' ∉ c.database.data ∧ ':' ∉ c.username.data

instance (c : DatabaseConnection) : Decidable (colonFree c) := by
  unfold colonFree; infer_instance

/-- Number of `connect` handshakes in a trace. -/
def countConnects (ev : List Event) : Nat :=
  (ev.filter (fun e => match e with | .connect _ => true | _ => false)).length

/-- An empty successful result set, as returned by `okBackend` executions. -/
def emptyOkResult : QueryResult :=
  { success := true, data := some [], row_count := 0, columns := some [],
    query_type := some .SELECT }

/-- A backend every call on which succeeds. -/
def okBackend : Backend :=
  { connectOk := fun _ => .ok (),
    executeQ := fun _ _ _ => .ok emptyOkResult,
    closeOk := fun _ => .ok (),
    testConn := fun _ => .ok true,
    validateSyn := fun _ _ => .ok true }

/-- A backend on which every call raises. -/
def errBackend : Backend :=
  { connectOk := fun _ => .error "connect refused",
    executeQ := fun _ _ _ => .error "execute failed",
    closeOk := fun _ => .error "close failed",
    testConn := fun _ => .error "test failed",
    validateSyn := fun _ _ => .error "syntax check failed" }

/-- A sample descriptor (postgresql backend). -/
def sampleConn : DatabaseConnection :=
  { host := "localhost", port := 5432, database := "appdb", username := "svc",
    password := "secret", database_type := .postgresql }

/-- A sample safe query against `sampleConn`. -/
def sampleSelect : DatabaseQuery :=
  { query := "SELECT id FROM t", database_connection := sampleConn }

/-- A sample unsafe query against `sampleConn`. -/
def sampleDelete : DatabaseQuery :=
  { query := "DELETE FROM users", database_connection := sampleConn }

/-! ### Helper lemmas -/

theorem pymin_le_right (a b : ℚ) : pymin a b ≤ b := by
  unfold pymin; split
  · assumption
  · exact le_refl b

theorem le_pymin (a b c : ℚ) (h1 : a ≤ b) (h2 : a ≤ c) : a ≤ pymin b c := by
  unfold pymin; split
  · exact h1
  · exact h2

theorem complexity_nonneg (q : String) : 0 ≤ _calculate_complexity_score q := by
  unfold _calculate_complexity_score
  refine le_pymin _ _ _ ?_ ?_
  · positivity
  · norm_num

theorem otherScore_nonneg (q : String) : 0 ≤ otherScore q := by
  unfold otherScore
  have h := complexity_nonneg q
  repeat' apply add_nonneg
  all_goals first
    | (split <;> norm_num)
    | linarith

theorem preScore_nonneg (q : String) : 0 ≤ preScore q := by
  unfold preScore
  have h := otherScore_nonneg q
  positivity

theorem riskScore_nonneg (q : String) : 0 ≤ riskScore q :=
  le_pymin _ _ _ (preScore_nonneg q) (by norm_num)

theorem riskScore_le_100 (q : String) : riskScore q ≤ 100 := pymin_le_right _ _

/-- C5: for every query text, the assessment's score lies in [0,100] and the
risk level is the deterministic threshold function of the score (so every
score maps to exactly one level). -/
theorem C5_score_bounds_and_level (q : String) :
    0 ≤ (assess_query_risk q).risk_score ∧ (assess_query_risk q).risk_score ≤ 100 ∧
    (assess_query_risk q).risk_level =
      _determine_risk_level (assess_query_risk q).risk_score := by
  unfold assess_query_risk
  split
  · refine ⟨by norm_num, by norm_num, ?_⟩
    simp only
    unfold _determine_risk_level
    norm_num
  · exact ⟨riskScore_nonneg q, riskScore_le_100 q, rfl⟩

/-- C10: whenever the assessment reports `is_safe = true`, its dangerous
operations list is empty, its score is strictly below 70, and its level is
LOW or MEDIUM. -/
theorem C10_safe_assessment (q : String) (h : (assess_query_risk q).is_safe = true) :
    (assess_query_risk q).dangerous_operations = [] ∧
    (assess_query_risk q).risk_score < 70 ∧
    ((assess_query_risk q).risk_level = RiskLevel.low ∨
      (assess_query_risk q).risk_level = RiskLevel.medium) := by
  unfold assess_query_risk at h ⊢
  by_cases hq : q = ""
  · rw [if_pos hq] at h
    simp at h
  · rw [if_neg hq] at h ⊢
    simp only [Bool.and_eq_true, decide_eq_true_eq] at h
    obtain ⟨hs, hlt⟩ := h
    have hempty : dangerousHits q = [] := by
      unfold safeFlag at hs
      simp only [Bool.and_eq_true, List.isEmpty_iff] at hs
      exact hs.1.1
    refine ⟨hempty, hlt, ?_⟩
    simp only
    unfold _determine_risk_level
    rw [if_neg (by linarith), if_neg (by linarith)]
    by_cases h40 : riskScore q ≥ 40
    · right; rw [if_pos h40]
    · left; rw [if_neg h40]

/-- C4: for every parseable (nonempty) query matching at least one dangerous
pattern, the assessment is unsafe, every matching pattern's name appears in
`dangerous_operations`, and the score is the clamp of 30 per match plus the
other heuristics. -/
theorem C4_dangerous_patterns (q : String) (hq : q ≠ "")
    (hhit : ∃ n ∈ dangerous_pattern_names, dangerousMatch n q = true) :
    (assess_query_risk q).is_safe = false ∧
    (∀ n ∈ dangerous_pattern_names, dangerousMatch n q = true →
      n ∈ (assess_query_risk q).dangerous_operations) ∧
    (assess_query_risk q).risk_score =
      pymin (30 * (((assess_query_risk q).dangerous_operations).length : ℚ) + otherScore q)
        100 := by
  obtain ⟨n0, hn0, hm0⟩ := hhit
  have hmem0 : n0 ∈ dangerousHits q := List.mem_filter.mpr ⟨hn0, hm0⟩
  have hempty : (dangerousHits q).isEmpty = false := by
    cases hcase : dangerousHits q with
    | nil => rw [hcase] at hmem0; exact absurd hmem0 (List.not_mem_nil n0)
    | cons a l => rfl
  unfold assess_query_risk
  rw [if_neg hq]
  refine ⟨?_, ?_, rfl⟩
  · simp only [safeFlag, hempty, Bool.false_and]
  · intro n hn hm
    exact List.mem_filter.mpr ⟨hn, hm⟩

/-- Concrete instantiation of `C4_dangerous_patterns` at `DROP TABLE users`
(matched by the `drop_table` pattern). -/
theorem C4_witness :
    (assess_query_risk "DROP TABLE users").is_safe = false ∧
    "drop_table" ∈ (assess_query_risk "DROP TABLE users").dangerous_operations := by
  have h := C4_dangerous_patterns "DROP TABLE users" (by decide)
    ⟨"drop_table", by decide, by decide⟩
  exact ⟨h.1, h.2.1 "drop_table" (by decide) (by decide)⟩

/-- C6: the assessment of exactly `DELETE FROM users` has score 65 = 30
(dangerous `delete_all`) + 15 (data modification) + 20 (missing WHERE), with
all other heuristics contributing 0, level MEDIUM, and `is_safe = false`. -/
theorem C6_delete_from_users :
    (assess_query_risk "DELETE FROM users").risk_score = 30 + 15 + 20 ∧
    (assess_query_risk "DELETE FROM users").dangerous_operations = ["delete_all"] ∧
    _is_data_modification_query "DELETE FROM users" = true ∧
    _has_missing_where_clause "DELETE FROM users" = true ∧
    _is_schema_change_query "DELETE FROM users" = false ∧
    _has_wildcard_select "DELETE FROM users" = false ∧
    _contains_system_commands "DELETE FROM users" = false ∧
    _calculate_complexity_score "DELETE FROM users" = 0 ∧
    (assess_query_risk "DELETE FROM users").risk_level = RiskLevel.medium ∧
    (assess_query_risk "DELETE FROM users").is_safe = false := by
  have hd : dangerousHits "DELETE FROM users" = ["delete_all"] := by decide
  have h1 : _is_data_modification_query "DELETE FROM users" = true := by decide
  have h2 : _is_schema_change_query "DELETE FROM users" = false := by decide
  have h3 : _has_missing_where_clause "DELETE FROM users" = true := by decide
  have h4 : _has_wildcard_select "DELETE FROM users" = false := by decide
  have h5 : _contains_system_commands "DELETE FROM users" = false := by decide
  have ht : complexityTotal "DELETE FROM users" = 0 := by decide
  have hc : _calculate_complexity_score "DELETE FROM users" = 0 := by
    unfold _calculate_complexity_score
    rw [ht]
    norm_num [pymin]
  have hscore : riskScore "DELETE FROM users" = 65 := by
    unfold riskScore preScore otherScore
    rw [hd, h1, h2, h3, h4, h5, hc]
    norm_num [pymin]
  unfold assess_query_risk
  rw [if_neg (by decide)]
  simp only [hd, hscore]
  refine ⟨by norm_num, by trivial, h1, h3, h2, h4, h5, hc, ?_, ?_⟩
  · unfold _determine_risk_level
    norm_num
  · simp [safeFlag, hd]

/-- C7 fails on the code: at `EXEC foo` the level is LOW and
`dangerous_operations = ["exec"]`, but the recommendation is the string
`Dangerous operations: exec`, not the first dangerous-operation name
`exec` required by the claim. -/
theorem C7_counterexample :
    (assess_query_risk "EXEC foo").risk_level = RiskLevel.low ∧
    (assess_query_risk "EXEC foo").dangerous_operations = ["exec"] ∧
    (assess_query_risk "EXEC foo").warnings = ["Dangerous operation detected: exec"] ∧
    (assess_query_risk "EXEC foo").recommendation ≠ some "exec" ∧
    (assess_query_risk "EXEC foo").recommendation = some "Dangerous operations: exec" := by
  have hd : dangerousHits "EXEC foo" = ["exec"] := by decide
  have h1 : _is_data_modification_query "EXEC foo" = false := by decide
  have h2 : _is_schema_change_query "EXEC foo" = false := by decide
  have h3 : _has_missing_where_clause "EXEC foo" = false := by decide
  have h4 : _has_wildcard_select "EXEC foo" = false := by decide
  have h5 : _contains_system_commands "EXEC foo" = false := by decide
  have ht : complexityTotal "EXEC foo" = 0 := by decide
  have hc : _calculate_complexity_score "EXEC foo" = 0 := by
    unfold _calculate_complexity_score
    rw [ht]
    norm_num [pymin]
  have hscore : riskScore "EXEC foo" = 30 := by
    unfold riskScore preScore otherScore
    rw [hd, h1, h2, h3, h4, h5, hc]
    norm_num [pymin]
  have hw : warningsOf "EXEC foo" = ["Dangerous operation detected: exec"] := by
    unfold warningsOf
    rw [hd, h1, h2, h3, h4, h5]
    rfl
  have hlevel : _determine_risk_level (riskScore "EXEC foo") = RiskLevel.low := by
    rw [hscore]
    unfold _determine_risk_level
    norm_num
  unfold assess_query_risk
  rw [if_neg (by decide)]
  simp only [hd, hw, hlevel]
  refine ⟨by trivial, by trivial, by trivial, ?_, ?_⟩
  · unfold _recommendation
    simp only
    intro hcontra
    have : "Dangerous operations: " ++ String.intercalate ", " ["exec"] = "exec" :=
      Option.some.inj hcontra
    exact absurd this (by decide)
  · unfold _recommendation
    rfl

/-- C7 (amended): for every parseable (nonempty) query, the recommendation is
"Query blocked: Critical risk level" when the level is CRITICAL, "High risk
query" when HIGH, "Medium risk query" when MEDIUM; otherwise, when
`dangerous_operations` is non-empty it is "Dangerous operations: " followed
by the comma-separated dangerous-operation names, else the first warning if
any, else "Query appears safe". -/
theorem C7_recommendation (q : String) (hq : q ≠ "") :
    (assess_query_risk q).recommendation = some (
      match (assess_query_risk q).risk_level with
      | RiskLevel.critical => "Query blocked: Critical risk level"
      | RiskLevel.high => "High risk query"
      | RiskLevel.medium => "Medium risk query"
      | RiskLevel.low =>
        match (assess_query_risk q).dangerous_operations with
        | _ :: _ => "Dangerous operations: " ++
            String.intercalate ", " (assess_query_risk q).dangerous_operations
        | [] =>
          match (assess_query_risk q).warnings with
          | w :: _ => w
          | [] => "Query appears safe") := by
  unfold assess_query_risk
  rw [if_neg hq]
  rfl

/-- Concrete instantiation of `C7_recommendation` at `EXEC foo`. -/
theorem C7_witness :
    (assess_query_risk "EXEC foo").recommendation = some (
      match (assess_query_risk "EXEC foo").risk_level with
      | RiskLevel.critical => "Query blocked: Critical risk level"
      | RiskLevel.high => "High risk query"
      | RiskLevel.medium => "Medium risk query"
      | RiskLevel.low =>
        match (assess_query_risk "EXEC foo").dangerous_operations with
        | _ :: _ => "Dangerous operations: " ++
            String.intercalate ", " (assess_query_risk "EXEC foo").dangerous_operations
        | [] =>
          match (assess_query_risk "EXEC foo").warnings with
          | w :: _ => w
          | [] => "Query appears safe") :=
  C7_recommendation "EXEC foo" (by decide)

theorem append_ne_empty_left (a b : String) (h : a.data ≠ []) : a ++ b ≠ "" := by
  cases a with
  | mk la =>
    cases b with
    | mk lb =>
      intro hc
      have hdata : la ++ lb = [] := congrArg String.data hc
      rcases List.append_eq_nil.mp hdata with ⟨h1, _⟩
      exact h h1

theorem mem_ite_singleton {α : Type} {a x : α} {c : Bool} (h : a ∈ (if c then [x] else [])) :
    a = x := by
  split at h
  · simpa using h
  · simp at h

theorem warningsOf_mem_ne_empty (q : String) : ∀ w ∈ warningsOf q, w ≠ "" := by
  intro w hw
  unfold warningsOf at hw
  simp only [List.append_assoc, List.mem_append] at hw
  rcases hw with hw | hw | hw | hw | hw | hw
  · obtain ⟨n, _, rfl⟩ := List.mem_map.mp hw
    exact append_ne_empty_left _ _ (by decide)
  · rw [mem_ite_singleton hw]; decide
  · rw [mem_ite_singleton hw]; decide
  · rw [mem_ite_singleton hw]; decide
  · rw [mem_ite_singleton hw]; decide
  · rw [mem_ite_singleton hw]; decide

theorem recommendation_of_assess (q : String) :
    ∃ r, (assess_query_risk q).recommendation = some r ∧ r ≠ "" := by
  unfold assess_query_risk
  split
  · exact ⟨_, rfl, by decide⟩
  · refine ⟨_, rfl, ?_⟩
    unfold _recommendation
    split
    · decide
    · decide
    · decide
    · split
      · exact append_ne_empty_left _ _ (by decide)
      · split
        · next w _ heq =>
          exact warningsOf_mem_ne_empty q w (heq ▸ List.mem_cons_self w _)
        · decide

/-- C1: when `validate_safety` is on and the risk assessment of the query is
unsafe, `execute_query` returns a failed result whose `error_message` is
exactly the assessment's recommendation, leaves the connector cache
untouched, and performs no connector call at all (empty trace: no connector
is resolved, connected, or executed). -/
theorem C1_unsafe_query_blocked (b : Backend) (s : ToolState) (q : DatabaseQuery)
    (h : (assess_query_risk q.query).is_safe = false) :
    (execute_query b s q true).1.success = false ∧
    (execute_query b s q true).1.error_message = (assess_query_risk q.query).recommendation ∧
    (execute_query b s q true).2.1 = s ∧
    (execute_query b s q true).2.2 = [] := by
  obtain ⟨r, hr, hne⟩ := recommendation_of_assess q.query
  have hcond : (true && !(assess_query_risk q.query).is_safe) = true := by
    rw [h]; rfl
  unfold execute_query execute_query_inner
  rw [if_pos hcond]
  refine ⟨rfl, ?_, rfl, rfl⟩
  simp only [hr, pyStrOr]
  rw [if_neg (by simp [hne])]

/-- Concrete instantiation of `C1_unsafe_query_blocked`: `DELETE FROM users`
is assessed unsafe, so it is blocked without any connector activity. -/
theorem C1_witness :
    (execute_query okBackend initState sampleDelete true).1.success = false ∧
    (execute_query okBackend initState sampleDelete true).1.error_message =
      (assess_query_risk sampleDelete.query).recommendation ∧
    (execute_query okBackend initState sampleDelete true).2.1 = initState ∧
    (execute_query okBackend initState sampleDelete true).2.2 = [] :=
  C1_unsafe_query_blocked okBackend initState sampleDelete (by decide)

/-- C2: the boundary operations never propagate an exception: whenever the
body of the `try` block raises `e`, `execute_query` returns the failed
`QueryResult` carrying `str(e)`, `validate_query` returns an assessment with
`is_safe = false`, and `test_connection` returns `false`. -/
theorem C2_never_raises (b : Backend) (s : ToolState) (q : DatabaseQuery) (v : Bool)
    (query : String) (conn : DatabaseConnection) :
    (∀ e, (execute_query_inner b s q v).1 = Except.error e →
      (execute_query b s q v).1 = failedQueryResult e) ∧
    (∀ e, (validate_query_inner b s query conn).1 = Except.error e →
      (validate_query b s query conn).1.is_safe = false) ∧
    (∀ e, (test_connection_inner b s conn).1 = Except.error e →
      (test_connection b s conn).1 = false) := by
  refine ⟨?_, ?_, ?_⟩
  · intro e he
    unfold execute_query
    rcases hinner : execute_query_inner b s q v with ⟨res, s', ev⟩
    rw [hinner] at he
    simp only at he
    rw [he]
  · intro e he
    unfold validate_query
    rcases hinner : validate_query_inner b s query conn with ⟨res, s', ev⟩
    rw [hinner] at he
    simp only at he
    rw [he]
  · intro e he
    unfold test_connection
    rcases hinner : test_connection_inner b s conn with ⟨res, s', ev⟩
    rw [hinner] at he
    simp only at he
    rw [he]

/-- Concrete instantiation of `C2_never_raises` on a backend whose every
call raises. -/
theorem C2_witness :
    (execute_query errBackend initState sampleSelect false).1 =
      failedQueryResult "connect refused" ∧
    (validate_query errBackend initState "SELECT 1" sampleConn).1.is_safe = false ∧
    (test_connection errBackend initState sampleConn).1 = false :=
  ⟨(C2_never_raises errBackend initState sampleSelect false "SELECT 1" sampleConn).1
      "connect refused" rfl,
   (C2_never_raises errBackend initState sampleSelect false "SELECT 1" sampleConn).2.1
      "connect refused" rfl,
   (C2_never_raises errBackend initState sampleSelect false "SELECT 1" sampleConn).2.2
      "connect refused" rfl⟩

/-- Identity key of a first cached connector in the C3 scenario. -/
def keyH1 : String := "postgresql:h1:1:d:u"

/-- Identity key of a second cached connector in the C3 scenario. -/
def keyH2 : String := "postgresql:h2:1:d:u"

/-- A cache holding two live connectors. -/
def twoConnState : ToolState := { connectors := [(keyH1, 0), (keyH2, 1)], nextId := 2 }

/-- A backend on which closing the first connector raises and every other
call succeeds. -/
def closeFailBackend : Backend :=
  { okBackend with closeOk := fun k => if k == keyH1 then .error "close failed" else .ok () }

/-- C3 fails on the code: with two cached connectors whose first `close`
raises, `close_all_connections` propagates the exception, the second
connector's `close` is never invoked (its key does not appear in the trace),
and the second connector remains in the cache (the cache is not emptied). -/
theorem C3_close_all_aborts_on_error :
    (close_all_connections closeFailBackend twoConnState).1 = Except.error "close failed" ∧
    (close_all_connections closeFailBackend twoConnState).2.1.connectors = [(keyH2, 1)] ∧
    (close_all_connections closeFailBackend twoConnState).2.2 = [Event.close keyH1] := by
  refine ⟨rfl, rfl, rfl⟩

/-- C8 fails on the code: the leading keyword of `INSERTING x` is
`INSERTING`, which is none of the seven keywords, yet the statement does not
classify as SELECT (prefix matching maps it to INSERT). -/
theorem C8_counterexample :
    leadingKeyword "INSERTING x" ∉ queryTypeKeywords.map (fun kv => kv.1.data) ∧
    _parse_query_type "INSERTING x" = QueryType.INSERT ∧
    _parse_query_type "INSERTING x" ≠ QueryType.SELECT := by
  refine ⟨by decide, by decide, by decide⟩

/-- C8 (amended): classification tests, in order, whether the uppercased
trimmed statement starts with SELECT/INSERT/UPDATE/DELETE/CREATE/ALTER/DROP
as a string prefix, returning the first match and SELECT when none matches;
in particular a statement whose leading keyword is exactly one of the seven
gets the corresponding kind, and one matching no keyword prefix gets
SELECT. -/
theorem isPrefixOf_self_append (l t : List Char) : l.isPrefixOf (l ++ t) = true := by
  induction l with
  | nil => simp [List.isPrefixOf]
  | cons c cs ih => simp [List.isPrefixOf, ih]

theorem C8_prefix_classification (q : String) :
    (∀ kw kind, (kw, kind) ∈ queryTypeKeywords → leadingKeyword q = kw.data →
      _parse_query_type q = kind) ∧
    ((∀ kw kind, (kw, kind) ∈ queryTypeKeywords →
      kw.data.isPrefixOf (pyUpper (pyStrip q.data)) = false) →
      _parse_query_type q = QueryType.SELECT) := by
  constructor
  · intro kw kind hmem heq
    unfold leadingKeyword at heq
    obtain ⟨t, ht⟩ : ∃ t, pyUpper (pyStrip q.data) = kw.data ++ t :=
      ⟨(pyUpper (pyStrip q.data)).dropWhile isWordChar, by
        conv_lhs => rw [← List.takeWhile_append_dropWhile (p := isWordChar)
          (l := pyUpper (pyStrip q.data))]
        rw [heq]⟩
    clear heq
    fin_cases hmem
    · simp only [_parse_query_type]
      rw [ht, isPrefixOf_self_append]
      rfl
    · simp only [_parse_query_type]
      rw [ht, show "SELECT".data.isPrefixOf ("INSERT".data ++ t) = false from rfl,
        isPrefixOf_self_append]
      rfl
    · simp only [_parse_query_type]
      rw [ht, show "SELECT".data.isPrefixOf ("UPDATE".data ++ t) = false from rfl,
        show "INSERT".data.isPrefixOf ("UPDATE".data ++ t) = false from rfl,
        isPrefixOf_self_append]
      rfl
    · simp only [_parse_query_type]
      rw [ht, show "SELECT".data.isPrefixOf ("DELETE".data ++ t) = false from rfl,
        show "INSERT".data.isPrefixOf ("DELETE".data ++ t) = false from rfl,
        show "UPDATE".data.isPrefixOf ("DELETE".data ++ t) = false from rfl,
        isPrefixOf_self_append]
      rfl
    · simp only [_parse_query_type]
      rw [ht, show "SELECT".data.isPrefixOf ("CREATE".data ++ t) = false from rfl,
        show "INSERT".data.isPrefixOf ("CREATE".data ++ t) = false from rfl,
        show "UPDATE".data.isPrefixOf ("CREATE".data ++ t) = false from rfl,
        show "DELETE".data.isPrefixOf ("CREATE".data ++ t) = false from rfl,
        isPrefixOf_self_append]
      rfl
    · simp only [_parse_query_type]
      rw [ht, show "SELECT".data.isPrefixOf ("ALTER".data ++ t) = false from rfl,
        show "INSERT".data.isPrefixOf ("ALTER".data ++ t) = false from rfl,
        show "UPDATE".data.isPrefixOf ("ALTER".data ++ t) = false from rfl,
        show "DELETE".data.isPrefixOf ("ALTER".data ++ t) = false from rfl,
        show "CREATE".data.isPrefixOf ("ALTER".data ++ t) = false from rfl,
        isPrefixOf_self_append]
      rfl
    · simp only [_parse_query_type]
      rw [ht, show "SELECT".data.isPrefixOf ("DROP".data ++ t) = false from rfl,
        show "INSERT".data.isPrefixOf ("DROP".data ++ t) = false from rfl,
        show "UPDATE".data.isPrefixOf ("DROP".data ++ t) = false from rfl,
        show "DELETE".data.isPrefixOf ("DROP".data ++ t) = false from rfl,
        show "CREATE".data.isPrefixOf ("DROP".data ++ t) = false from rfl,
        show "ALTER".data.isPrefixOf ("DROP".data ++ t) = false from rfl,
        isPrefixOf_self_append]
      rfl
  · intro hall
    have h1 := hall "SELECT" QueryType.SELECT (by decide)
    have h2 := hall "INSERT" QueryType.INSERT (by decide)
    have h3 := hall "UPDATE" QueryType.UPDATE (by decide)
    have h4 := hall "DELETE" QueryType.DELETE (by decide)
    have h5 := hall "CREATE" QueryType.CREATE (by decide)
    have h6 := hall "ALTER" QueryType.ALTER (by decide)
    have h7 := hall "DROP" QueryType.DROP (by decide)
    simp only [_parse_query_type, h1, h2, h3, h4, h5, h6, h7]
    rfl

/-- Concrete instantiation of `C8_prefix_classification`: the leading keyword
of `drop table x` is exactly DROP, so it classifies as DROP. -/
theorem C8_witness : _parse_query_type "drop table x" = QueryType.DROP :=
  (C8_prefix_classification "drop table x").1 "DROP" QueryType.DROP (by decide) (by decide)

theorem digitCh_ne_colon (n : Nat) (h : n < 10) : digitCh n ≠ ':' := by
  interval_cases n <;> decide

theorem digitCh_val (n : Nat) (h : n < 10) : (digitCh n).toNat - 48 = n := by
  interval_cases n <;> decide

/-- Numeric value of a digit string (used to invert `natDigs`). -/
def digsVal (l : List Char) : Nat := l.foldl (fun a c => 10 * a + (c.toNat - 48)) 0

theorem digsVal_append_digit (l : List Char) (c : Char) :
    digsVal (l ++ [c]) = 10 * digsVal l + (c.toNat - 48) := by
  unfold digsVal
  rw [List.foldl_append]
  rfl

theorem digsVal_natDigsAux (fuel : Nat) :
    ∀ n, n < 10 ^ fuel → digsVal (natDigsAux fuel n) = n := by
  induction fuel with
  | zero =>
    intro n h
    simp only [pow_zero, Nat.lt_one_iff] at h
    subst h
    rfl
  | succ f ih =>
    intro n h
    rw [natDigsAux]
    split
    · rename_i h10
      show 10 * 0 + ((digitCh n).toNat - 48) = n
      rw [digitCh_val n h10]
      omega
    · rename_i h10
      rw [digsVal_append_digit, ih (n / 10) ?_, digitCh_val (n % 10) (Nat.mod_lt n (by omega))]
      · omega
      · have hp : n < 10 ^ f * 10 := by
          rw [← pow_succ]
          exact h
        generalize 10 ^ f = K at hp ⊢
        omega

theorem lt_ten_pow_succ (n : Nat) : n < 10 ^ (n + 1) := by
  induction n with
  | zero => norm_num
  | succ k ih =>
    have h1 : (1 : Nat) ≤ 10 ^ (k + 1) := Nat.one_le_pow _ _ (by omega)
    have h2 : 10 ^ (k + 2) = 10 ^ (k + 1) * 10 := by rw [pow_succ]
    omega

theorem digsVal_natDigs (n : Nat) : digsVal (natDigs n) = n :=
  digsVal_natDigsAux (n + 1) n (lt_ten_pow_succ n)

theorem natDigs_inj (a b : Nat) (h : natDigs a = natDigs b) : a = b := by
  have hv := congrArg digsVal h
  rwa [digsVal_natDigs, digsVal_natDigs] at hv

theorem colon_not_mem_natDigsAux (fuel : Nat) : ∀ n, ':' ∉ natDigsAux fuel n := by
  induction fuel with
  | zero => intro n; simp [natDigsAux]
  | succ f ih =>
    intro n
    rw [natDigsAux]
    split
    · rename_i h10
      intro hmem
      rw [List.mem_singleton] at hmem
      exact digitCh_ne_colon n h10 hmem.symm
    · rename_i h10
      intro hmem
      rw [List.mem_append] at hmem
      rcases hmem with hmem | hmem
      · exact ih (n / 10) hmem
      · rw [List.mem_singleton] at hmem
        exact digitCh_ne_colon (n % 10) (Nat.mod_lt n (by omega)) hmem.symm

theorem colon_not_mem_natDigs (n : Nat) : ':' ∉ natDigs n :=
  colon_not_mem_natDigsAux (n + 1) n

theorem colon_seg_inj (a₁ : List Char) :
    ∀ a₂ r₁ r₂ : List Char, ':' ∉ a₁ → ':' ∉ a₂ →
      a₁ ++ ':' :: r₁ = a₂ ++ ':' :: r₂ → a₁ = a₂ ∧ r₁ = r₂ := by
  induction a₁ with
  | nil =>
    intro a₂ r₁ r₂ _ h₂ h
    cases a₂ with
    | nil => simpa using h
    | cons d u =>
      rw [List.nil_append, List.cons_append, List.cons.injEq] at h
      exact absurd (h.1 ▸ List.mem_cons_self d u) h₂
  | cons c l ih =>
    intro a₂ r₁ r₂ h₁ h₂ h
    cases a₂ with
    | nil =>
      rw [List.nil_append, List.cons_append, List.cons.injEq] at h
      exact absurd (h.1 ▸ List.mem_cons_self c l) h₁
    | cons d u =>
      rw [List.cons_append, List.cons_append, List.cons.injEq] at h
      obtain ⟨hcd, htail⟩ := h
      have hm₁ : ':' ∉ l := fun hm => h₁ (List.mem_cons_of_mem c hm)
      have hm₂ : ':' ∉ u := fun hm => h₂ (List.mem_cons_of_mem d hm)
      obtain ⟨he, hr⟩ := ih u r₁ r₂ hm₁ hm₂ htail
      exact ⟨by rw [hcd, he], hr⟩

theorem dbtype_value_colon (t : DatabaseType) : ':' ∉ t.value.data := by
  cases t <;> decide

theorem dbtype_value_inj (a b : DatabaseType) (h : a.value.data = b.value.data) : a = b := by
  cases a <;> cases b <;> first | rfl | (exfalso; revert h; decide)

theorem string_eq_of_data (s t : String) (h : s.data = t.data) : s = t := by
  cases s
  cases t
  exact congrArg String.mk h

/-- Equal identity keys with colon-free string fields force equal identity
fields: the key string determines (backend-type, host, port, database,
username). -/
theorem conn_key_inj (a b : DatabaseConnection) (ha : colonFree a) (hb : colonFree b)
    (h : _conn_key a = _conn_key b) : sameIdentity a b := by
  have hd := congrArg String.data h
  simp only [_conn_key, List.append_assoc, List.cons_append] at hd
  obtain ⟨h1, hrest⟩ := colon_seg_inj _ _ _ _ (dbtype_value_colon a.database_type)
    (dbtype_value_colon b.database_type) hd
  obtain ⟨h2, hrest2⟩ := colon_seg_inj _ _ _ _ ha.1 hb.1 hrest
  obtain ⟨h3, hrest3⟩ := colon_seg_inj _ _ _ _ (colon_not_mem_natDigs a.port)
    (colon_not_mem_natDigs b.port) hrest2
  obtain ⟨h4, h5⟩ := colon_seg_inj _ _ _ _ ha.2.1 hb.2.1 hrest3
  exact ⟨dbtype_value_inj _ _ h1, string_eq_of_data _ _ h2, natDigs_inj _ _ h3,
    string_eq_of_data _ _ h4, string_eq_of_data _ _ h5⟩

/-- Identity agreement yields equal keys (the key ignores the password and
the remaining descriptor fields). -/
theorem conn_key_congr (a b : DatabaseConnection) (h : sameIdentity a b) :
    _conn_key a = _conn_key b := by
  obtain ⟨h1, h2, h3, h4, h5⟩ := h
  unfold _conn_key
  rw [h1, h2, h3, h4, h5]

/-- A descriptor whose `database` field contains a colon. -/
def connColonA : DatabaseConnection :=
  { host := "h", port := 1, database := "d:x", username := "u", password := "p",
    database_type := .postgresql }

/-- A descriptor differing from `connColonA` in `database` and `username`,
yet yielding the same colon-joined identity key. -/
def connColonB : DatabaseConnection :=
  { host := "h", port := 1, database := "d", username := "x:u", password := "p",
    database_type := .postgresql }

/-- C9 fails on the code: `connColonA` and `connColonB` differ in the
`database` identity field, yet their f-string keys collide, so the second
descriptor silently reuses the first one's connector (same instance id, no
connector creation) instead of getting an independent one. -/
theorem C9_counterexample :
    connColonA.database ≠ connColonB.database ∧
    _conn_key connColonA = _conn_key connColonB ∧
    (_get_connector okBackend ((_get_connector okBackend initState connColonA).2.1)
        connColonB).1 =
      (_get_connector okBackend initState connColonA).1 ∧
    (_get_connector okBackend ((_get_connector okBackend initState connColonA).2.1)
        connColonB).2.2 = [] := by
  refine ⟨by decide, by decide, rfl, rfl⟩

/-- C9 (amended): for supported backend types (the three registered ones)
and successful handshakes, descriptors agreeing on the five identity fields
share one key and reuse the cached connector with a single connect
handshake even if their passwords differ; and descriptors whose host,
database and username contain no colon (the key is their colon-joined
rendering, which cannot distinguish fields that embed colons) that disagree
on some identity field get distinct keys and independent connectors. -/
theorem C9_identity_key (A B : DatabaseConnection) (b : Backend)
    (hAt : A.database_type ≠ DatabaseType.sqlite)
    (hBt : B.database_type ≠ DatabaseType.sqlite)
    (hA : b.connectOk (_conn_key A) = .ok ())
    (hB : b.connectOk (_conn_key B) = .ok ()) :
    (sameIdentity A B →
      _conn_key A = _conn_key B ∧
      _get_connector b ((_get_connector b initState A).2.1) B =
        (Except.ok 0, (_get_connector b initState A).2.1, []) ∧
      countConnects ((_get_connector b initState A).2.2) = 1) ∧
    (colonFree A → colonFree B → ¬ sameIdentity A B →
      _conn_key A ≠ _conn_key B ∧
      (_get_connector b initState A).1 = Except.ok 0 ∧
      _get_connector b ((_get_connector b initState A).2.1) B =
        (Except.ok 1,
         { connectors := [(_conn_key A, 0), (_conn_key B, 1)], nextId := 2 },
         [Event.connectorCreated (_conn_key B) 1, Event.connect (_conn_key B)])) := by
  have hAty : ∃ p, _connector_types A.database_type = some p := by
    cases hdt : A.database_type
    · exact ⟨_, rfl⟩
    · exact ⟨_, rfl⟩
    · exact ⟨_, rfl⟩
    · exact absurd hdt hAt
  obtain ⟨pA, hpA⟩ := hAty
  have h0 : _get_connector b initState A =
      (Except.ok 0, { connectors := [(_conn_key A, 0)], nextId := 1 },
        [Event.connectorCreated (_conn_key A) 0, Event.connect (_conn_key A)]) := by
    unfold _get_connector initState lookupKey
    simp [hpA, hA]
  constructor
  · intro hid
    have hkey := conn_key_congr A B hid
    refine ⟨hkey, ?_, ?_⟩
    · rw [h0]
      unfold _get_connector lookupKey
      rw [← hkey]
      simp
    · rw [h0]
      rfl
  · intro hcfA hcfB hne
    have hkne : _conn_key A ≠ _conn_key B := fun hk => hne (conn_key_inj A B hcfA hcfB hk)
    have hbeq : (_conn_key A == _conn_key B) = false := beq_eq_false_iff_ne.mpr hkne
    have hBty : ∃ p, _connector_types B.database_type = some p := by
      cases hdt : B.database_type
      · exact ⟨_, rfl⟩
      · exact ⟨_, rfl⟩
      · exact ⟨_, rfl⟩
      · exact absurd hdt hBt
    obtain ⟨pB, hpB⟩ := hBty
    refine ⟨hkne, by rw [h0], ?_⟩
    rw [h0]
    unfold _get_connector lookupKey
    simp [hbeq, hpB, hB]

/-- A plain colon-free descriptor. -/
def connPort1 : DatabaseConnection :=
  { host := "h", port := 1, database := "d", username := "u", password := "p",
    database_type := .postgresql }

/-- `connPort1` with a different password only. -/
def connPort1pw : DatabaseConnection :=
  { host := "h", port := 1, database := "d", username := "u", password := "zz",
    database_type := .postgresql }

/-- `connPort1` with a different port (and password). -/
def connPort2 : DatabaseConnection :=
  { host := "h", port := 2, database := "d", username := "u", password := "q",
    database_type := .postgresql }

/-- Concrete instantiation of `C9_identity_key`: same identity with a
different password reuses the cached connector; differing only in the port
yields a distinct key and an independent second connector. -/
theorem C9_witness :
    (_conn_key connPort1 = _conn_key connPort1pw ∧
      _get_connector okBackend ((_get_connector okBackend initState connPort1).2.1)
        connPort1pw =
        (Except.ok 0, (_get_connector okBackend initState connPort1).2.1, [])) ∧
    (_conn_key connPort1 ≠ _conn_key connPort2 ∧
      _get_connector okBackend ((_get_connector okBackend initState connPort1).2.1)
        connPort2 =
        (Except.ok 1,
         { connectors := [(_conn_key connPort1, 0), (_conn_key connPort2, 1)], nextId := 2 },
         [Event.connectorCreated (_conn_key connPort2) 1,
          Event.connect (_conn_key connPort2)])) := by
  have h1 := (C9_identity_key connPort1 connPort1pw okBackend (by decide) (by decide)
    rfl rfl).1 (by decide)
  have h2 := (C9_identity_key connPort1 connPort2 okBackend (by decide) (by decide)
    rfl rfl).2 (by decide) (by decide) (by decide)
  exact ⟨⟨h1.1, h1.2.1⟩, ⟨h2.1, h2.2.2⟩⟩

/-- Concrete instantiation of `C10_safe_assessment` at the safe query
`SELECT id FROM t` (score 0). -/
theorem C10_witness :
    (assess_query_risk "SELECT id FROM t").dangerous_operations = [] ∧
    (assess_query_risk "SELECT id FROM t").risk_score < 70 ∧
    ((assess_query_risk "SELECT id FROM t").risk_level = RiskLevel.low ∨
      (assess_query_risk "SELECT id FROM t").risk_level = RiskLevel.medium) := by
  apply C10_safe_assessment
  have hd : dangerousHits "SELECT id FROM t" = [] := by decide
  have h1 : _is_data_modification_query "SELECT id FROM t" = false := by decide
  have h2 : _is_schema_change_query "SELECT id FROM t" = false := by decide
  have h3 : _has_missing_where_clause "SELECT id FROM t" = false := by decide
  have h4 : _has_wildcard_select "SELECT id FROM t" = false := by decide
  have h5 : _contains_system_commands "SELECT id FROM t" = false := by decide
  have ht : complexityTotal "SELECT id FROM t" = 0 := by decide
  have hc : _calculate_complexity_score "SELECT id FROM t" = 0 := by
    unfold _calculate_complexity_score
    rw [ht]
    norm_num [pymin]
  have hscore : riskScore "SELECT id FROM t" = 0 := by
    unfold riskScore preScore otherScore
    rw [hd, h1, h2, h3, h4, h5, hc]
    norm_num [pymin]
  have hsf : safeFlag "SELECT id FROM t" = true := by decide
  unfold assess_query_risk
  rw [if_neg (by decide)]
  show (safeFlag "SELECT id FROM t" && decide (riskScore "SELECT id FROM t" < 70)) = true
  rw [hscore, hsf, decide_eq_true (show (0 : ℚ) < 70 by norm_num)]
  rfl
